import Mathlib

/-!
Shallow embedding of the mindcare-backend waitlist service.

The MongoDB `Waitlist` collection is a list of entries keyed by the unique,
normalized `email` field; `Date` values are modelled as `Nat` timestamps.
The nodemailer transport is modelled by an explicit outcome value passed to
the handler; `sendWelcomeEmail` (services/emailService.js) catches a
transport error, logs it and rethrows, so it is an `Except`: it either
returns `{success := true, ...}` or propagates the error.
-/

inductive WStatus where
  | pending
  | confirmed
  | unsubscribed
deriving DecidableEq, Repr

/-- String form of a status, as stored in MongoDB (`enum` of the schema). -/
def WStatus.toStr : WStatus → String
  | .pending => "pending"
  | .confirmed => "confirmed"
  | .unsubscribed => "unsubscribed"

/-- One document of the `Waitlist` collection (models/Waitlist.js). -/
structure WaitlistEntry where
  email : String
  ipAddress : Option String
  userAgent : Option String
  referralSource : Option String
  status : WStatus
  confirmedAt : Option Nat
  createdAt : Nat
deriving DecidableEq, Repr

abbrev WaitlistStore := List WaitlistEntry

/-- `Waitlist.findOne({ email })`: first document whose (unique) email matches. -/
def wFindOne (store : WaitlistStore) (email : String) : Option WaitlistEntry :=
  store.find? (fun e => e.email == email)

/-- `document.save()` on a fetched entry: the stored document with this
email is replaced by the updated one (email is the unique key). -/
def wSave (store : WaitlistStore) (e : WaitlistEntry) : WaitlistStore :=
  store.map (fun x => if x.email == e.email then e else x)

/-- Outcome of the underlying nodemailer `transporter.sendMail` call. -/
inductive MailOutcome where
  | delivered (messageId : String)
  | failed (errMsg : String)
deriving DecidableEq, Repr

/-- Shape of the value `sendWelcomeEmail` returns when it does not throw. -/
structure SendResult where
  success : Bool
  skipped : Bool
  error : Option String
deriving DecidableEq, Repr

/-- `sendWelcomeEmail` (services/emailService.js, lines 237-294): on a
delivered mail it returns `{success: true, messageId, accepted}`; on any
transport error it logs and rethrows (`throw error`), so the error
propagates to the caller. It never returns a `skipped` result. -/
def sendWelcomeEmail (transport : MailOutcome) : Except String SendResult :=
  match transport with
  | .delivered _ => .ok { success := true, skipped := false, error := none }
  | .failed m => .error m

/-- A JSON response: HTTP status code, `success` flag, `message`, payload. -/
structure HttpResponse (α : Type) where
  status : Nat
  success : Bool
  message : String
  data : Option α
deriving DecidableEq, Repr

/-- Payload of a successful join response. `position` and `emailSent` are
present only on the entry-creation path. -/
structure JoinData where
  email : String
  position : Option Nat
  emailSent : Option Bool
deriving DecidableEq, Repr

def reactivatedMsg : String := "Welcome back! You\x27ve been added to the waitlist again."

def alreadyMsg : String := "You\x27re already on the waitlist!"

def createdWithEmailMsg : String := "Successfully added to waitlist! Check your email for confirmation."

def createdPlainMsg : String := "Successfully added to waitlist!"

def joinFailedMsg : String := "Failed to join waitlist. Please try again."

/-- The position query of addToWaitlist:
`Waitlist.countDocuments({createdAt: {$lte: t}, status: {$ne: 'unsubscribed'}})`. -/
def countAtOrBefore (store : WaitlistStore) (t : Nat) : Nat :=
  (store.filter (fun e => decide (e.createdAt ≤ t) && e.status != .unsubscribed)).length

/-- `addToWaitlist` (waitlist controller, part_003 lines 299-411), after the
express-validator layer has validated and normalized `email`. `now` is the
current time (`new Date()`), `transport` the mail transport's behaviour for
this request. Returns the HTTP response together with the store as left by
the handler; note that the `catch` block at the bottom of the handler does
not undo store writes already performed, it only answers 500. -/
def addToWaitlist (store : WaitlistStore) (email : String)
    (referralSource ipAddress userAgent : Option String)
    (now : Nat) (transport : MailOutcome) :
    HttpResponse JoinData × WaitlistStore :=
  match wFindOne store email with
  | some existingEntry =>
    if existingEntry.status == .unsubscribed then
      -- reactivate: status := 'pending', confirmedAt := null, save
      let updated := { existingEntry with status := .pending, confirmedAt := none }
      let store1 := wSave store updated
      match sendWelcomeEmail transport with
      | .ok _ =>
        ({ status := 200, success := true, message := reactivatedMsg,
           data := some { email := updated.email, position := none, emailSent := none } },
         store1)
      | .error _ =>
        -- the uncaught rethrow falls through to the handler's catch block
        ({ status := 500, success := false, message := joinFailedMsg, data := none }, store1)
    else
      ({ status := 200, success := true, message := alreadyMsg,
         data := some { email := existingEntry.email, position := none, emailSent := none } },
       store)
  | none =>
    let waitlistEntry : WaitlistEntry :=
      { email := email, ipAddress := ipAddress, userAgent := userAgent,
        referralSource := referralSource, status := .confirmed,
        confirmedAt := some now, createdAt := now }
    let store1 := store ++ [waitlistEntry]
    match sendWelcomeEmail transport with
    | .ok emailResult =>
      let emailSent := emailResult.success
      let position := countAtOrBefore store1 waitlistEntry.createdAt
      ({ status := 201, success := true,
         message := if emailSent then createdWithEmailMsg else createdPlainMsg,
         data := some { email := waitlistEntry.email, position := some position,
                        emailSent := some emailSent } },
       store1)
    | .error _ =>
      -- sendWelcomeEmail rethrows; nothing catches it before the outer catch
      ({ status := 500, success := false, message := joinFailedMsg, data := none }, store1)

/-- `unsubscribe` (waitlist controller, part_003 lines 508-543), after
validation. -/
def unsubscribe (store : WaitlistStore) (email : String) :
    HttpResponse JoinData × WaitlistStore :=
  match wFindOne store email with
  | none =>
    ({ status := 404, success := false, message := "Email not found in waitlist",
       data := none }, store)
  | some entry =>
    let updated := { entry with status := WStatus.unsubscribed }
    ({ status := 200, success := true,
       message := "Successfully unsubscribed from waitlist", data := none },
     wSave store updated)

/-- Result of `getWaitlistStats` (part_003 lines 416-442). -/
structure WaitlistStatsData where
  total : Nat
  confirmed : Nat
  today : Nat
deriving DecidableEq, Repr

/-- `getWaitlistStats`: the three `countDocuments` queries; `todayStart` is
`new Date(new Date().setHours(0,0,0,0))`, local midnight. -/
def getWaitlistStats (store : WaitlistStore) (todayStart : Nat) : WaitlistStatsData :=
  { total := (store.filter (fun e => e.status != .unsubscribed)).length
    confirmed := (store.filter (fun e => e.status == .confirmed)).length
    today := (store.filter (fun e =>
        decide (todayStart ≤ e.createdAt) && e.status != .unsubscribed)).length }

/-! ## Admin authentication (middleware/auth.js = part_000, adminController = part_003) -/

/-- A signed JWT as produced by `jwt.sign(payload, secret, {expiresIn})`:
the claims it carries plus the secret it was signed with (a token verifies
under `jwt.verify(token, s)` iff `s` equals that secret and the token is
not expired). -/
structure Token where
  email : String
  role : String
  iat : Nat
  exp : Nat
  signedWith : String
deriving DecidableEq, Repr

/-- `generateToken(email)` (middleware/auth.js lines 31-37):
`jwt.sign({email, role: 'admin'}, JWT_SECRET, {expiresIn: '24h'})`.
The embedded role is the literal string 'admin'. -/
def generateToken (secret : String) (email : String) (now : Nat) : Token :=
  { email := email, role := "admin", iat := now, exp := now + 24 * 60 * 60,
    signedWith := secret }

/-- The identity `jwt.verify` exposes on success (`req.admin`). -/
structure AdminIdentity where
  email : String
  role : String
deriving DecidableEq, Repr

/-- `authenticateAdmin` (middleware/auth.js lines 6-28). `token` is the
bearer-header-or-cookie value, `none` when absent. `jwt.verify` succeeds
iff the signature checks out (same secret) and `now` is before `exp`. -/
def authenticateAdmin (secret : String) (token : Option Token) (now : Nat) :
    Except (HttpResponse AdminIdentity) AdminIdentity :=
  match token with
  | none =>
    .error { status := 401, success := false,
             message := "Access denied. No token provided.", data := none }
  | some t =>
    if t.signedWith == secret && decide (now < t.exp) then
      .ok { email := t.email, role := t.role }
    else
      .error { status := 401, success := false,
               message := "Invalid or expired token.", data := none }

/-- One document of the `Admin` collection. Modelled from the spec:
models/Admin.js is not among the provided sources; fields are from spec §3
(AdminAccount) and the schema printed in the repository's admin setup
guide — `password` holds only the bcrypt hash. -/
structure AdminAccount where
  email : String
  password : String
  role : String
  isActive : Bool
  lastLogin : Option Nat
deriving DecidableEq, Repr

abbrev AdminStore := List AdminAccount

/-- `Admin.findOne({ email })`. -/
def adminFindOne (store : AdminStore) (email : String) : Option AdminAccount :=
  store.find? (fun a => a.email == email)

/-- Payload of a successful login response. -/
structure LoginData where
  token : Token
  email : String
  role : String
  expiresIn : String
deriving DecidableEq, Repr

def invalidCredsMsg : String := "Invalid email or password"

def deactivatedMsg : String := "Account is deactivated. Contact support."

/-! ## Admin entry listing and CSV export (admin controller, part_003) -/

/-- Insert into a list kept sorted by `createdAt` descending. -/
def insertDesc (e : WaitlistEntry) : List WaitlistEntry → List WaitlistEntry
  | [] => [e]
  | x :: xs => if e.createdAt ≤ x.createdAt then x :: insertDesc e xs else e :: x :: xs

/-- The store's `.sort({ createdAt: -1 })`. -/
def sortByCreatedAtDesc (l : List WaitlistEntry) : List WaitlistEntry :=
  l.foldr insertDesc []

/-- Modelled external dependency: one character step of MongoDB's
`$regex` with `$options: 'i'`, for the pattern fragment of literal
characters and the `.` metacharacter. `.` matches any character; a literal
matches case-insensitively. -/
def regexCharMatch (p c : Char) : Bool :=
  p == '.' || p.toLower == c.toLower

/-- The regex matches a leading segment of the text. -/
def regexMatchHere : List Char → List Char → Bool
  | [], _ => true
  | _ :: _, [] => false
  | p :: ps, c :: cs => regexCharMatch p c && regexMatchHere ps cs

/-- Unanchored regex search: the pattern matches at some position. -/
def regexSearch (pat : List Char) : List Char → Bool
  | [] => regexMatchHere pat []
  | c :: cs => regexMatchHere pat (c :: cs) || regexSearch pat cs

/-- Case-insensitive literal prefix match (spec-side notion). -/
def prefixMatchCI : List Char → List Char → Bool
  | [], _ => true
  | _ :: _, [] => false
  | p :: ps, c :: cs => (p.toLower == c.toLower) && prefixMatchCI ps cs

/-- Modelled from the spec's words for the listing filter: the needle
occurs in the haystack as a case-insensitive literal substring. -/
def substringCI (needle : List Char) : List Char → Bool
  | [] => prefixMatchCI needle []
  | c :: cs => prefixMatchCI needle (c :: cs) || substringCI needle cs

/-- The status part of the admin query builder:
`if (status && status !== 'all') query.status = status` —
an absent, empty or `'all'` status filters nothing. -/
def statusFilterMatch (statusQ : Option String) (e : WaitlistEntry) : Bool :=
  match statusQ with
  | none => true
  | some s => if s == "" then true else if s == "all" then true else e.status.toStr == s

/-- The search part of the admin query builder:
`if (search) query.email = { $regex: search, $options: 'i' }` —
the raw search string is handed to `$regex`, not escaped. -/
def searchFilterMatch (searchQ : Option String) (e : WaitlistEntry) : Bool :=
  match searchQ with
  | none => true
  | some s => if s == "" then true else regexSearch s.toList e.email.toList

structure EntriesPagination where
  page : Nat
  limit : Nat
  total : Nat
  pages : Nat
deriving DecidableEq, Repr

structure EntriesData where
  entries : List WaitlistEntry
  pagination : EntriesPagination
deriving DecidableEq, Repr

/-- `getAllEntries` (admin controller, part_003 lines 178-222): filter by
status and email regex, sort `createdAt` descending, `skip`/`limit`
pagination, `total = countDocuments(query)`, `pages = ceil(total/limit)`. -/
def getAllEntries (store : WaitlistStore) (page limit : Nat)
    (statusQ searchQ : Option String) : EntriesData :=
  let skip := (page - 1) * limit
  let matching := store.filter (fun e => statusFilterMatch statusQ e && searchFilterMatch searchQ e)
  let entries := ((sortByCreatedAtDesc matching).drop skip).take limit
  let total := matching.length
  { entries := entries
    pagination := { page := page, limit := limit, total := total,
                    pages := (total + limit - 1) / limit } }

def csvHeader : String := "Email,Status,Signup Date,Confirmed Date,IP Address\n"

/-- One CSV data row of `exportToCSV`; `iso` stands for
`Date.prototype.toISOString`. `entry.ipAddress || 'N/A'` also maps an
empty string to `N/A`. -/
def csvRow (iso : Nat → String) (e : WaitlistEntry) : String :=
  e.email ++ "," ++ e.status.toStr ++ "," ++ iso e.createdAt ++ "," ++
    (match e.confirmedAt with | some t => iso t | none => "N/A") ++ "," ++
    (match e.ipAddress with | some ip => if ip == "" then "N/A" else ip | none => "N/A")

/-- The data rows of `exportToCSV` (part_003 lines 227-260): the entries
matching the status query, sorted `createdAt` descending, one row each. -/
def exportRows (iso : Nat → String) (statusQ : Option String) (store : WaitlistStore) :
    List String :=
  (sortByCreatedAtDesc (store.filter (statusFilterMatch statusQ))).map (csvRow iso)

/-- `exportToCSV`: `csvHeader + csvRows.join('\n')`. -/
def exportToCSV (iso : Nat → String) (statusQ : Option String) (store : WaitlistStore) :
    String :=
  csvHeader ++ String.intercalate "\n" (exportRows iso statusQ store)

/-- `adminLogin` (admin controller, part_003 lines 9-73), after validation.
`bcryptCompare candidate storedHash` stands for the external
`bcrypt.compare` used by `admin.comparePassword` (modelled from the spec:
models/Admin.js is not in the sources; spec §9 gives the capability
`verify(plaintext, hash) -> bool`). -/
def adminLogin (bcryptCompare : String → String → Bool) (secret : String)
    (store : AdminStore) (email password : String) (now : Nat) :
    HttpResponse LoginData × AdminStore :=
  match adminFindOne store email with
  | none =>
    ({ status := 401, success := false, message := invalidCredsMsg, data := none }, store)
  | some admin =>
    if !admin.isActive then
      ({ status := 403, success := false, message := deactivatedMsg, data := none }, store)
    else if !(bcryptCompare password admin.password) then
      ({ status := 401, success := false, message := invalidCredsMsg, data := none }, store)
    else
      let admin1 := { admin with lastLogin := some now }
      let store1 := store.map (fun a => if a.email == admin1.email then admin1 else a)
      let token := generateToken secret email now
      ({ status := 200, success := true, message := "Login successful",
         data := some { token := token, email := admin.email, role := admin.role,
                        expiresIn := "24h" } },
       store1)

/-! ## Helper lemmas -/

theorem length_insertDesc (e : WaitlistEntry) (l : List WaitlistEntry) :
    (insertDesc e l).length = l.length + 1 := by
  induction l with
  | nil => rfl
  | cons x xs ih =>
    by_cases h : e.createdAt ≤ x.createdAt <;> simp [insertDesc, h, ih]

theorem length_sortByCreatedAtDesc (l : List WaitlistEntry) :
    (sortByCreatedAtDesc l).length = l.length := by
  induction l with
  | nil => rfl
  | cons x xs ih =>
    show (insertDesc x (sortByCreatedAtDesc xs)).length = xs.length + 1
    rw [length_insertDesc, ih]

theorem mem_insertDesc {a e : WaitlistEntry} {l : List WaitlistEntry} :
    a ∈ insertDesc e l ↔ a = e ∨ a ∈ l := by
  induction l with
  | nil => simp [insertDesc]
  | cons x xs ih =>
    by_cases h : e.createdAt ≤ x.createdAt <;> simp [insertDesc, h, ih] <;> tauto

theorem mem_sortByCreatedAtDesc {a : WaitlistEntry} {l : List WaitlistEntry} :
    a ∈ sortByCreatedAtDesc l ↔ a ∈ l := by
  induction l with
  | nil => simp [sortByCreatedAtDesc]
  | cons x xs ih =>
    show a ∈ insertDesc x (sortByCreatedAtDesc xs) ↔ _
    rw [mem_insertDesc, ih]
    simp [eq_comm]

theorem sorted_insertDesc (e : WaitlistEntry) (l : List WaitlistEntry)
    (hl : l.Pairwise (fun a b => b.createdAt ≤ a.createdAt)) :
    (insertDesc e l).Pairwise (fun a b => b.createdAt ≤ a.createdAt) := by
  induction l with
  | nil => simp [insertDesc]
  | cons x xs ih =>
    rcases List.pairwise_cons.mp hl with ⟨hx, hxs⟩
    by_cases h : e.createdAt ≤ x.createdAt
    · simp only [insertDesc, if_pos h]
      refine List.pairwise_cons.mpr ⟨?_, ih hxs⟩
      intro a ha
      rcases mem_insertDesc.mp ha with rfl | ha'
      · exact h
      · exact hx a ha'
    · simp only [insertDesc, if_neg h]
      refine List.pairwise_cons.mpr ⟨?_, hl⟩
      intro a ha
      rcases List.mem_cons.mp ha with rfl | ha'
      · omega
      · exact le_trans (hx a ha') (by omega)

theorem sorted_sortByCreatedAtDesc (l : List WaitlistEntry) :
    (sortByCreatedAtDesc l).Pairwise (fun a b => b.createdAt ≤ a.createdAt) := by
  induction l with
  | nil => simp [sortByCreatedAtDesc]
  | cons x xs ih => exact sorted_insertDesc x _ ih

theorem wFindOne_append_single (store : WaitlistStore) (x : WaitlistEntry) (email : String)
    (h : wFindOne store email = none) (hx : x.email = email) :
    wFindOne (store ++ [x]) email = some x := by
  induction store with
  | nil => simp [wFindOne, List.find?, hx]
  | cons a l ih =>
    unfold wFindOne at h ⊢
    cases hpa : (a.email == email) with
    | true => simp [List.find?_cons, hpa] at h
    | false =>
      simp only [List.cons_append, List.find?_cons, hpa]
      simp only [List.find?_cons, hpa] at h
      exact ih h

theorem wFindOne_save_eq (store : WaitlistStore) (email : String)
    (entry updated : WaitlistEntry)
    (hf : wFindOne store email = some entry) (he : updated.email = entry.email) :
    wFindOne (wSave store updated) email = some updated := by
  have hf0 : store.find? (fun e => e.email == email) = some entry := hf
  have hpe := List.find?_some hf0
  have hee : entry.email = email := by simpa using hpe
  have hue : updated.email = email := by rw [he, hee]
  clear hf hpe
  induction store with
  | nil => simp at hf0
  | cons a l ih =>
    by_cases hpa : a.email = email
    · show List.find? (fun e => e.email == email)
        (List.map (fun x => if x.email == updated.email then updated else x) (a :: l)) =
          some updated
      rw [List.map_cons, if_pos (by simp [hpa, hue] : (a.email == updated.email) = true)]
      exact List.find?_cons_of_pos _ (by simp [hue])
    · have h1 : l.find? (fun e => e.email == email) = some entry := by
        rw [List.find?_cons_of_neg _ (by simp [hpa])] at hf0
        exact hf0
      show List.find? (fun e => e.email == email)
        (List.map (fun x => if x.email == updated.email then updated else x) (a :: l)) =
          some updated
      rw [List.map_cons,
        if_neg (by simp [hpa, hue] : ¬ (a.email == updated.email) = true)]
      rw [List.find?_cons_of_neg _ (by simp [hpa])]
      exact ih h1

theorem mem_wSave_iff {store : WaitlistStore} {updated x : WaitlistEntry}
    (hne : x.email ≠ updated.email) :
    x ∈ wSave store updated ↔ x ∈ store := by
  unfold wSave
  constructor
  · intro hx
    rcases List.mem_map.mp hx with ⟨y, hy, hfy⟩
    by_cases h : y.email == updated.email
    · rw [if_pos h] at hfy
      exact absurd (hfy ▸ rfl) hne
    · rw [if_neg h] at hfy
      exact hfy ▸ hy
  · intro hx
    refine List.mem_map.mpr ⟨x, hx, ?_⟩
    rw [if_neg (by simpa using hne)]

/-- The document `Waitlist.create` builds on the fresh-email path of
`addToWaitlist` (auto-confirmed, `confirmedAt = now`). -/
def newWaitlistEntry (email : String) (rs ip ua : Option String) (now : Nat) :
    WaitlistEntry :=
  { email := email, ipAddress := ip, userAgent := ua, referralSource := rs,
    status := WStatus.confirmed, confirmedAt := some now, createdAt := now }

theorem addToWaitlist_already (store : WaitlistStore) (email : String)
    (rs ip ua : Option String) (now : Nat) (tr : MailOutcome) (entry : WaitlistEntry)
    (hf : wFindOne store email = some entry) (hs : entry.status ≠ WStatus.unsubscribed) :
    addToWaitlist store email rs ip ua now tr =
      ({ status := 200, success := true, message := alreadyMsg,
         data := some { email := entry.email, position := none, emailSent := none } },
       store) := by
  unfold addToWaitlist
  rw [hf]
  have hb : (entry.status == WStatus.unsubscribed) = false := by
    cases hst : entry.status <;> simp_all
  simp [hb]

theorem addToWaitlist_create_store (store : WaitlistStore) (email : String)
    (rs ip ua : Option String) (now : Nat) (tr : MailOutcome)
    (h : wFindOne store email = none) :
    (addToWaitlist store email rs ip ua now tr).2 =
      store ++ [newWaitlistEntry email rs ip ua now] := by
  unfold addToWaitlist
  rw [h]
  cases tr <;> rfl

theorem addToWaitlist_create_delivered (store : WaitlistStore) (email : String)
    (rs ip ua : Option String) (now : Nat) (mid : String)
    (h : wFindOne store email = none) :
    addToWaitlist store email rs ip ua now (MailOutcome.delivered mid) =
      ({ status := 201, success := true, message := createdWithEmailMsg,
         data := some { email := email,
                        position := some (countAtOrBefore
                          (store ++ [newWaitlistEntry email rs ip ua now]) now),
                        emailSent := some true } },
       store ++ [newWaitlistEntry email rs ip ua now]) := by
  unfold addToWaitlist
  rw [h]
  rfl

theorem addToWaitlist_reactivate_store (store : WaitlistStore) (email : String)
    (rs ip ua : Option String) (now : Nat) (tr : MailOutcome) (entry : WaitlistEntry)
    (hf : wFindOne store email = some entry) (hs : entry.status = WStatus.unsubscribed) :
    (addToWaitlist store email rs ip ua now tr).2 =
      wSave store { entry with status := WStatus.pending, confirmedAt := none } := by
  unfold addToWaitlist
  rw [hf]
  have hb : (entry.status == WStatus.unsubscribed) = true := by simp [hs]
  simp only [hb, if_true]
  cases tr <;> rfl

/-! ## Claim theorems -/

/-- C1: the claim says a welcome-email failure never fails a join that
creates a new entry (response stays successful with emailSent=false). The
code contradicts this — and its own comments ("Return success even if
email fails"): `sendWelcomeEmail` rethrows every transport error and
`addToWaitlist` does not catch it, so the handler's outer catch answers
500 even though the entry was created. Evaluated at the failing input:
empty store, join a@b.com, transport raises ECONNECTION. -/
theorem c1_mail_error_fails_join_request :
    (addToWaitlist [] "a@b.com" none none none 5 (MailOutcome.failed "ECONNECTION")).1 =
      { status := 500, success := false, message := joinFailedMsg, data := none } ∧
    wFindOne (addToWaitlist [] "a@b.com" none none none 5 (MailOutcome.failed "ECONNECTION")).2
        "a@b.com" =
      some { email := "a@b.com", ipAddress := none, userAgent := none, referralSource := none,
             status := WStatus.confirmed, confirmedAt := some 5, createdAt := 5 } :=
  ⟨rfl, rfl⟩

def c4Entry : WaitlistEntry :=
  { email := "u@b.com", ipAddress := some "1.2.3.4", userAgent := none,
    referralSource := some "twitter", status := WStatus.unsubscribed,
    confirmedAt := some 3, createdAt := 1 }

/-- C4: the claim says a join on an unsubscribed entry reactivates it
(status pending, confirmedAt cleared, persisted) and returns success even
when the welcome email fails ("logged, not propagated"). The persistence
part holds, but the rethrow of `sendWelcomeEmail` is not caught on the
reactivation path either, so the request answers 500 instead of the
reactivation success message. Evaluated at the failing input: one
unsubscribed entry, transport raises ETIMEDOUT. -/
theorem c4_reactivation_mail_error_fails_request :
    (addToWaitlist [c4Entry] "u@b.com" none none none 9 (MailOutcome.failed "ETIMEDOUT")).1 =
      { status := 500, success := false, message := joinFailedMsg, data := none } ∧
    (addToWaitlist [c4Entry] "u@b.com" none none none 9 (MailOutcome.failed "ETIMEDOUT")).2 =
      [{ c4Entry with status := WStatus.pending, confirmedAt := none }] :=
  ⟨rfl, rfl⟩

/-- C3: joining twice with the same normalized email is idempotent: the
second call answers 200 success with the "already on the waitlist"
message, leaves the store exactly as it was after the first call, and the
store holds exactly one entry for that email. -/
theorem c3_join_twice_idempotent (store : WaitlistStore) (email : String)
    (rs ip ua : Option String) (now : Nat) (t1 : MailOutcome)
    (rs2 ip2 ua2 : Option String) (now2 : Nat) (t2 : MailOutcome)
    (h : wFindOne store email = none) :
    (addToWaitlist (addToWaitlist store email rs ip ua now t1).2 email rs2 ip2 ua2 now2 t2).1 =
      { status := 200, success := true, message := alreadyMsg,
        data := some { email := email, position := none, emailSent := none } } ∧
    (addToWaitlist (addToWaitlist store email rs ip ua now t1).2 email rs2 ip2 ua2 now2 t2).2 =
      (addToWaitlist store email rs ip ua now t1).2 ∧
    ((addToWaitlist store email rs ip ua now t1).2.filter
        (fun e => e.email == email)).length = 1 := by
  have hs1 : (addToWaitlist store email rs ip ua now t1).2 =
      store ++ [newWaitlistEntry email rs ip ua now] :=
    addToWaitlist_create_store store email rs ip ua now t1 h
  have hfind : wFindOne (addToWaitlist store email rs ip ua now t1).2 email =
      some (newWaitlistEntry email rs ip ua now) := by
    rw [hs1]
    exact wFindOne_append_single store _ email h rfl
  have halready := addToWaitlist_already (addToWaitlist store email rs ip ua now t1).2
    email rs2 ip2 ua2 now2 t2 (newWaitlistEntry email rs ip ua now) hfind (by
      intro hc
      exact WStatus.noConfusion hc)
  refine ⟨?_, ?_, ?_⟩
  · rw [halready]
    rfl
  · rw [halready]
  · have h' : store.find? (fun e => e.email == email) = none := h
    rw [hs1, List.filter_append]
    have h0 : store.filter (fun e => e.email == email) = [] := by
      rw [List.filter_eq_nil_iff]
      intro a ha hpa
      exact List.find?_eq_none.mp h' a ha hpa
    rw [h0]
    simp [newWaitlistEntry, List.filter]

/-- C3 witness. -/
theorem c3_join_twice_idempotent_witness :
    (addToWaitlist (addToWaitlist [] "a@b.com" none none none 1 (MailOutcome.delivered "m1")).2
        "a@b.com" none none none 2 (MailOutcome.delivered "m2")).1 =
      { status := 200, success := true, message := alreadyMsg,
        data := some { email := "a@b.com", position := none, emailSent := none } } ∧
    (addToWaitlist (addToWaitlist [] "a@b.com" none none none 1 (MailOutcome.delivered "m1")).2
        "a@b.com" none none none 2 (MailOutcome.delivered "m2")).2 =
      (addToWaitlist [] "a@b.com" none none none 1 (MailOutcome.delivered "m1")).2 ∧
    ((addToWaitlist [] "a@b.com" none none none 1 (MailOutcome.delivered "m1")).2.filter
        (fun e => e.email == "a@b.com")).length = 1 :=
  c3_join_twice_idempotent [] "a@b.com" none none none 1 (MailOutcome.delivered "m1")
    none none none 2 (MailOutcome.delivered "m2") rfl

/-- C5: a join that creates a new entry (welcome mail delivered, so the
handler reaches its response) answers 201 and its data is
{email, position, emailSent}, the position being the count of entries with
status ≠ unsubscribed created at or before the new entry's createdAt, over
the store that now contains the entry. -/
theorem c5_created_position_and_data (store : WaitlistStore) (email : String)
    (rs ip ua : Option String) (now : Nat) (mid : String)
    (h : wFindOne store email = none) :
    (addToWaitlist store email rs ip ua now (MailOutcome.delivered mid)).1.status = 201 ∧
    (addToWaitlist store email rs ip ua now (MailOutcome.delivered mid)).1.data =
      some { email := email,
             position := some (((addToWaitlist store email rs ip ua now
                 (MailOutcome.delivered mid)).2.filter (fun e =>
                   e.status != WStatus.unsubscribed && decide (e.createdAt ≤ now))).length),
             emailSent := some true } := by
  have hcr := addToWaitlist_create_delivered store email rs ip ua now mid h
  rw [hcr]
  refine ⟨rfl, ?_⟩
  have hsw : countAtOrBefore (store ++ [newWaitlistEntry email rs ip ua now]) now =
      ((store ++ [newWaitlistEntry email rs ip ua now]).filter (fun e =>
          e.status != WStatus.unsubscribed && decide (e.createdAt ≤ now))).length := by
    unfold countAtOrBefore
    congr 1
    exact List.filter_congr (fun x _ => Bool.and_comm _ _)
  show some _ = some _
  rw [← hsw]

/-- C5 witness. -/
theorem c5_created_position_and_data_witness :
    (addToWaitlist [] "a@b.com" none none none 7 (MailOutcome.delivered "m")).1.status = 201 ∧
    (addToWaitlist [] "a@b.com" none none none 7 (MailOutcome.delivered "m")).1.data =
      some { email := "a@b.com",
             position := some (((addToWaitlist [] "a@b.com" none none none 7
                 (MailOutcome.delivered "m")).2.filter (fun e =>
                   e.status != WStatus.unsubscribed && decide (e.createdAt ≤ 7))).length),
             emailSent := some true } :=
  c5_created_position_and_data [] "a@b.com" none none none 7 "m" rfl

/-- C9: the public stats: total counts the entries with status ≠
unsubscribed, confirmed counts the entries with status = confirmed, and
confirmed ≤ total. -/
theorem c9_stats_counts (store : WaitlistStore) (todayStart : Nat) :
    (getWaitlistStats store todayStart).total =
      (store.filter (fun e => e.status != WStatus.unsubscribed)).length ∧
    (getWaitlistStats store todayStart).confirmed =
      (store.filter (fun e => e.status == WStatus.confirmed)).length ∧
    (getWaitlistStats store todayStart).confirmed ≤
      (getWaitlistStats store todayStart).total := by
  refine ⟨rfl, rfl, ?_⟩
  have hsub : List.Sublist (store.filter (fun e => e.status == WStatus.confirmed))
      (store.filter (fun e => e.status != WStatus.unsubscribed)) :=
    List.monotone_filter_right store (fun e he => by
      revert he
      cases e.status <;> simp)
  exact hsub.length_le

/-- C10: unsubscribe modifies only the status field — email, confirmedAt,
createdAt, ipAddress, userAgent and referralSource are unchanged, other
entries are untouched — and the (possibly non-null) confirmedAt survives
until a later join reactivates the entry and clears it. -/
theorem c10_unsubscribe_frame (store : WaitlistStore) (email : String)
    (entry : WaitlistEntry) (h : wFindOne store email = some entry) :
    (unsubscribe store email).1.status = 200 ∧
    (unsubscribe store email).1.success = true ∧
    wFindOne (unsubscribe store email).2 email =
      some { entry with status := WStatus.unsubscribed } ∧
    ({ entry with status := WStatus.unsubscribed }).email = entry.email ∧
    ({ entry with status := WStatus.unsubscribed }).confirmedAt = entry.confirmedAt ∧
    ({ entry with status := WStatus.unsubscribed }).createdAt = entry.createdAt ∧
    ({ entry with status := WStatus.unsubscribed }).ipAddress = entry.ipAddress ∧
    ({ entry with status := WStatus.unsubscribed }).userAgent = entry.userAgent ∧
    ({ entry with status := WStatus.unsubscribed }).referralSource = entry.referralSource ∧
    (∀ x : WaitlistEntry, x.email ≠ entry.email →
      (x ∈ (unsubscribe store email).2 ↔ x ∈ store)) ∧
    (∀ rs ip ua now2 tr,
      wFindOne (addToWaitlist (unsubscribe store email).2 email rs ip ua now2 tr).2 email =
        some { entry with status := WStatus.pending, confirmedAt := none }) := by
  have hs2 : (unsubscribe store email).2 =
      wSave store { entry with status := WStatus.unsubscribed } := by
    unfold unsubscribe
    rw [h]
  have hr : (unsubscribe store email).1 =
      { status := 200, success := true,
        message := "Successfully unsubscribed from waitlist", data := none } := by
    unfold unsubscribe
    rw [h]
  have hfind2 : wFindOne (unsubscribe store email).2 email =
      some { entry with status := WStatus.unsubscribed } := by
    rw [hs2]
    exact wFindOne_save_eq store email entry _ h rfl
  refine ⟨by rw [hr], by rw [hr], hfind2, rfl, rfl, rfl, rfl, rfl, rfl, ?_, ?_⟩
  · intro x hx
    rw [hs2]
    exact mem_wSave_iff hx
  · intro rs ip ua now2 tr
    have hre := addToWaitlist_reactivate_store (unsubscribe store email).2 email
      rs ip ua now2 tr _ hfind2 rfl
    rw [hre]
    exact wFindOne_save_eq _ email { entry with status := WStatus.unsubscribed } _ hfind2 rfl

def c10Entry : WaitlistEntry :=
  { email := "c@d.com", ipAddress := some "9.9.9.9", userAgent := some "UA",
    referralSource := some "ad", status := WStatus.confirmed,
    confirmedAt := some 4, createdAt := 2 }

/-- C10 witness. -/
theorem c10_unsubscribe_frame_witness :
    (unsubscribe [c10Entry] "c@d.com").1.status = 200 ∧
    (unsubscribe [c10Entry] "c@d.com").1.success = true ∧
    wFindOne (unsubscribe [c10Entry] "c@d.com").2 "c@d.com" =
      some { c10Entry with status := WStatus.unsubscribed } ∧
    ({ c10Entry with status := WStatus.unsubscribed }).email = c10Entry.email ∧
    ({ c10Entry with status := WStatus.unsubscribed }).confirmedAt = c10Entry.confirmedAt ∧
    ({ c10Entry with status := WStatus.unsubscribed }).createdAt = c10Entry.createdAt ∧
    ({ c10Entry with status := WStatus.unsubscribed }).ipAddress = c10Entry.ipAddress ∧
    ({ c10Entry with status := WStatus.unsubscribed }).userAgent = c10Entry.userAgent ∧
    ({ c10Entry with status := WStatus.unsubscribed }).referralSource =
      c10Entry.referralSource ∧
    (∀ x : WaitlistEntry, x.email ≠ c10Entry.email →
      (x ∈ (unsubscribe [c10Entry] "c@d.com").2 ↔ x ∈ [c10Entry])) ∧
    (∀ rs ip ua now2 tr,
      wFindOne (addToWaitlist (unsubscribe [c10Entry] "c@d.com").2 "c@d.com"
          rs ip ua now2 tr).2 "c@d.com" =
        some { c10Entry with status := WStatus.pending, confirmedAt := none }) :=
  c10_unsubscribe_frame [c10Entry] "c@d.com" c10Entry rfl

/-- C2 counterexample: the claim promises the generic 401 "Invalid email
or password" for every wrong-password login, regardless of whether the
account exists. A deactivated account breaks it: `adminLogin` checks
`isActive` before comparing the password and answers 403 "Account is
deactivated. Contact support.", a different message than the one an absent
account gets, leaking that the account exists. -/
theorem c2_inactive_account_distinct_response :
    (adminLogin (fun _ _ => false) "secret"
        [{ email := "admin@mindcare.com", password := "hash", role := "admin",
           isActive := false, lastLogin := none }]
        "admin@mindcare.com" "wrong" 0).1.status = 403 ∧
    (adminLogin (fun _ _ => false) "secret"
        [{ email := "admin@mindcare.com", password := "hash", role := "admin",
           isActive := false, lastLogin := none }]
        "admin@mindcare.com" "wrong" 0).1.message = deactivatedMsg ∧
    (adminLogin (fun _ _ => false) "secret" []
        "admin@mindcare.com" "wrong" 0).1.status = 401 ∧
    (adminLogin (fun _ _ => false) "secret" []
        "admin@mindcare.com" "wrong" 0).1.message = invalidCredsMsg ∧
    deactivatedMsg ≠ invalidCredsMsg :=
  ⟨rfl, rfl, rfl, rfl, by decide⟩

/-- C2 (amended): for a login whose password does not match, the response
is the generic 401 "Invalid email or password" regardless of whether the
account exists — provided any account stored under that email is active;
a deactivated account instead gets 403 before the password is checked. -/
theorem c2_wrong_password_generic (cmp : String → String → Bool) (secret : String)
    (store : AdminStore) (email password : String) (now : Nat)
    (hAct : ∀ a, adminFindOne store email = some a →
      a.isActive = true ∧ cmp password a.password = false) :
    (adminLogin cmp secret store email password now).1 =
      { status := 401, success := false, message := invalidCredsMsg, data := none } ∧
    (adminLogin cmp secret store email password now).2 = store := by
  unfold adminLogin
  cases hf : adminFindOne store email with
  | none => exact ⟨rfl, rfl⟩
  | some a =>
    obtain ⟨h1, h2⟩ := hAct a hf
    simp [h1, h2]

def c2Active : AdminAccount :=
  { email := "admin@mindcare.com", password := "hash", role := "admin",
    isActive := true, lastLogin := none }

/-- C2 witness: an existing, active account with a wrong password gets the
same generic 401 as the absent-account case of the counterexample. -/
theorem c2_wrong_password_generic_witness :
    (adminLogin (fun _ _ => false) "secret" [c2Active]
        "admin@mindcare.com" "wrong" 0).1 =
      { status := 401, success := false, message := invalidCredsMsg, data := none } ∧
    (adminLogin (fun _ _ => false) "secret" [c2Active]
        "admin@mindcare.com" "wrong" 0).2 = [c2Active] :=
  c2_wrong_password_generic (fun _ _ => false) "secret" [c2Active]
    "admin@mindcare.com" "wrong" 0
    (by
      intro a ha
      have h2 : (some c2Active : Option AdminAccount) = some a := ha
      have hae : a = c2Active := (Option.some_inj.mp h2).symm
      subst hae
      exact ⟨rfl, rfl⟩)

theorem adminFindOne_save_eq (store : AdminStore) (email : String)
    (acct upd : AdminAccount)
    (hf : adminFindOne store email = some acct) (he : upd.email = acct.email) :
    adminFindOne (store.map (fun a => if a.email == upd.email then upd else a)) email =
      some upd := by
  have hf0 : store.find? (fun a => a.email == email) = some acct := hf
  have hpe := List.find?_some hf0
  have hee : acct.email = email := by simpa using hpe
  have hue : upd.email = email := by rw [he, hee]
  clear hf hpe
  induction store with
  | nil => simp at hf0
  | cons a l ih =>
    by_cases hpa : a.email = email
    · show List.find? (fun x => x.email == email)
        (List.map (fun x => if x.email == upd.email then upd else x) (a :: l)) = some upd
      rw [List.map_cons, if_pos (by simp [hpa, hue] : (a.email == upd.email) = true)]
      exact List.find?_cons_of_pos _ (by simp [hue])
    · have h1 : l.find? (fun x => x.email == email) = some acct := by
        rw [List.find?_cons_of_neg _ (by simp [hpa])] at hf0
        exact hf0
      show List.find? (fun x => x.email == email)
        (List.map (fun x => if x.email == upd.email then upd else x) (a :: l)) = some upd
      rw [List.map_cons, if_neg (by simp [hpa, hue] : ¬ (a.email == upd.email) = true)]
      rw [List.find?_cons_of_neg _ (by simp [hpa])]
      exact ih h1

def c6Super : AdminAccount :=
  { email := "root@mindcare.com", password := "H", role := "superadmin",
    isActive := true, lastLogin := none }

/-- C6 counterexample: the claim says the issued token embeds the
account's email and role. For a superadmin account the token's role is
still the literal 'admin': `generateToken` hardcodes `{email, role:
'admin'}` and ignores the stored role. -/
theorem c6_token_role_not_account_role :
    ((adminLogin (fun _ _ => true) "sec" [c6Super] "root@mindcare.com" "pw" 100).1.data.map
        (fun d => d.token.role)) = some "admin" ∧
    c6Super.role = "superadmin" ∧
    ("admin" : String) ≠ "superadmin" :=
  ⟨rfl, rfl, by decide⟩

/-- C6 (amended): a login with correct credentials and isActive=true
updates lastLogin and issues a token embedding the request email and the
constant role 'admin' (not the account's stored role), valid for 24 hours;
authenticateAdmin accepts that token while the window lasts and answers
401 for a missing token, a token signed under another secret, or an
expired token. -/
theorem c6_login_token_verify (cmp : String → String → Bool) (secret : String)
    (store : AdminStore) (email password : String) (now : Nat) (admin : AdminAccount)
    (hf : adminFindOne store email = some admin)
    (hact : admin.isActive = true)
    (hpw : cmp password admin.password = true) :
    (adminLogin cmp secret store email password now).1.status = 200 ∧
    (adminLogin cmp secret store email password now).1.data =
      some { token := generateToken secret email now, email := admin.email,
             role := admin.role, expiresIn := "24h" } ∧
    adminFindOne (adminLogin cmp secret store email password now).2 email =
      some { admin with lastLogin := some now } ∧
    (generateToken secret email now).email = email ∧
    (generateToken secret email now).role = "admin" ∧
    (generateToken secret email now).exp = now + 24 * 60 * 60 ∧
    (∀ t, t < now + 24 * 60 * 60 →
      authenticateAdmin secret (some (generateToken secret email now)) t =
        Except.ok { email := email, role := "admin" }) ∧
    (∀ t, now + 24 * 60 * 60 ≤ t →
      authenticateAdmin secret (some (generateToken secret email now)) t =
        Except.error { status := 401, success := false,
                       message := "Invalid or expired token.", data := none }) ∧
    (∀ t, authenticateAdmin secret (none : Option Token) t =
      Except.error { status := 401, success := false,
                     message := "Access denied. No token provided.", data := none }) ∧
    (∀ t tok, tok.signedWith ≠ secret →
      authenticateAdmin secret (some tok) t =
        Except.error { status := 401, success := false,
                       message := "Invalid or expired token.", data := none }) := by
  have hresp : adminLogin cmp secret store email password now =
      ({ status := 200, success := true, message := "Login successful",
         data := some { token := generateToken secret email now, email := admin.email,
                        role := admin.role, expiresIn := "24h" } },
       store.map (fun a =>
         if a.email == ({ admin with lastLogin := some now } : AdminAccount).email then
           { admin with lastLogin := some now } else a)) := by
    unfold adminLogin
    rw [hf]
    simp [hact, hpw]
  refine ⟨by rw [hresp], by rw [hresp], ?_, rfl, rfl, rfl, ?_, ?_, ?_, ?_⟩
  · rw [hresp]
    exact adminFindOne_save_eq store email admin _ hf rfl
  · intro t ht
    unfold authenticateAdmin
    simp [generateToken, ht]
  · intro t ht
    have hnt : ¬ (t < now + 24 * 60 * 60) := by omega
    unfold authenticateAdmin
    simp [generateToken, hnt]
  · intro t
    rfl
  · intro t tok htok
    have hb : (tok.signedWith == secret) = false := by
      simpa using htok
    unfold authenticateAdmin
    simp [hb]

def c6Acct : AdminAccount :=
  { email := "a2@mindcare.com", password := "HH", role := "admin",
    isActive := true, lastLogin := none }

/-- C6 witness. -/
theorem c6_login_token_verify_witness :
    (adminLogin (fun _ _ => true) "sec" [c6Acct] "a2@mindcare.com" "pw" 50).1.status = 200 ∧
    (adminLogin (fun _ _ => true) "sec" [c6Acct] "a2@mindcare.com" "pw" 50).1.data =
      some { token := generateToken "sec" "a2@mindcare.com" 50, email := c6Acct.email,
             role := c6Acct.role, expiresIn := "24h" } ∧
    adminFindOne (adminLogin (fun _ _ => true) "sec" [c6Acct] "a2@mindcare.com" "pw" 50).2
        "a2@mindcare.com" = some { c6Acct with lastLogin := some 50 } ∧
    (generateToken "sec" "a2@mindcare.com" 50).email = "a2@mindcare.com" ∧
    (generateToken "sec" "a2@mindcare.com" 50).role = "admin" ∧
    (generateToken "sec" "a2@mindcare.com" 50).exp = 50 + 24 * 60 * 60 ∧
    (∀ t, t < 50 + 24 * 60 * 60 →
      authenticateAdmin "sec" (some (generateToken "sec" "a2@mindcare.com" 50)) t =
        Except.ok { email := "a2@mindcare.com", role := "admin" }) ∧
    (∀ t, 50 + 24 * 60 * 60 ≤ t →
      authenticateAdmin "sec" (some (generateToken "sec" "a2@mindcare.com" 50)) t =
        Except.error { status := 401, success := false,
                       message := "Invalid or expired token.", data := none }) ∧
    (∀ t, authenticateAdmin "sec" (none : Option Token) t =
      Except.error { status := 401, success := false,
                     message := "Access denied. No token provided.", data := none }) ∧
    (∀ t tok, tok.signedWith ≠ "sec" →
      authenticateAdmin "sec" (some tok) t =
        Except.error { status := 401, success := false,
                       message := "Invalid or expired token.", data := none }) :=
  c6_login_token_verify (fun _ _ => true) "sec" [c6Acct] "a2@mindcare.com" "pw" 50
    c6Acct rfl rfl rfl

/-- C7: the CSV export for a status filter is the fixed header followed by
exactly one row per entry matching the filter — its row count equals the
listEntries total for the same filter, whatever the pagination — in
createdAt-descending order, each row carrying the ISO-rendered timestamps
with N/A for an absent confirmedAt or ipAddress. -/
theorem c7_export_matches_listing (iso : Nat → String) (statusQ : Option String)
    (store : WaitlistStore) (page limit : Nat) :
    (exportRows iso statusQ store).length =
      (getAllEntries store page limit statusQ none).pagination.total ∧
    exportToCSV iso statusQ store =
      "Email,Status,Signup Date,Confirmed Date,IP Address\n" ++
        String.intercalate "\n" (exportRows iso statusQ store) ∧
    (sortByCreatedAtDesc (store.filter (statusFilterMatch statusQ))).Pairwise
      (fun a b => b.createdAt ≤ a.createdAt) ∧
    exportRows iso statusQ store =
      (sortByCreatedAtDesc (store.filter (statusFilterMatch statusQ))).map (fun e =>
        e.email ++ "," ++ e.status.toStr ++ "," ++ iso e.createdAt ++ "," ++
          (match e.confirmedAt with | some t => iso t | none => "N/A") ++ "," ++
          (match e.ipAddress with
           | some ip => if ip == "" then "N/A" else ip
           | none => "N/A")) := by
  refine ⟨?_, rfl, sorted_sortByCreatedAtDesc _, rfl⟩
  show (exportRows iso statusQ store).length =
    (store.filter (fun e => statusFilterMatch statusQ e && searchFilterMatch none e)).length
  unfold exportRows
  rw [List.length_map, length_sortByCreatedAtDesc]
  congr 1
  exact (List.filter_congr (fun x _ => by simp [searchFilterMatch])).symm

theorem substringCI_nil (l : List Char) : substringCI [] l = true := by
  induction l with
  | nil => rfl
  | cons c cs ih =>
    show (prefixMatchCI [] (c :: cs) || substringCI [] cs) = true
    rw [ih]
    rfl

theorem regexMatchHere_no_dot (pat : List Char) (hd : '.' ∉ pat) :
    ∀ txt, regexMatchHere pat txt = prefixMatchCI pat txt := by
  induction pat with
  | nil => intro txt; rfl
  | cons p ps ih =>
    intro txt
    cases txt with
    | nil => rfl
    | cons c cs =>
      have hp : p ≠ '.' := fun h => hd (h ▸ List.mem_cons_self p ps)
      have hps : '.' ∉ ps := fun h => hd (List.mem_cons_of_mem _ h)
      show (regexCharMatch p c && regexMatchHere ps cs) =
        ((p.toLower == c.toLower) && prefixMatchCI ps cs)
      rw [ih hps cs]
      unfold regexCharMatch
      have hpb : (p == '.') = false := by simpa using hp
      rw [hpb]
      simp

theorem regexSearch_no_dot (pat : List Char) (hd : '.' ∉ pat) :
    ∀ txt, regexSearch pat txt = substringCI pat txt := by
  intro txt
  induction txt with
  | nil =>
    show regexMatchHere pat [] = prefixMatchCI pat []
    exact regexMatchHere_no_dot pat hd []
  | cons c cs ih =>
    show (regexMatchHere pat (c :: cs) || regexSearch pat cs) =
      (prefixMatchCI pat (c :: cs) || substringCI pat cs)
    rw [regexMatchHere_no_dot pat hd, ih]

theorem searchFilterMatch_no_dot (s : String) (e : WaitlistEntry)
    (hd : ('.' : Char) ∉ s.toList) :
    searchFilterMatch (some s) e = substringCI s.toList e.email.toList := by
  unfold searchFilterMatch
  by_cases h0 : s = ""
  · subst h0
    have h1 : ("" : String).toList = [] := rfl
    rw [h1, substringCI_nil]
    rfl
  · have hb : (s == "") = false := by simpa using h0
    show (if (s == "") = true then true else regexSearch s.toList e.email.toList) =
      substringCI s.toList e.email.toList
    rw [if_neg (by simp [hb])]
    exact regexSearch_no_dot s.toList hd e.email.toList

def c8Entry : WaitlistEntry :=
  { email := "xaz@b.com", ipAddress := none, userAgent := none, referralSource := none,
    status := WStatus.confirmed, confirmedAt := none, createdAt := 1 }

/-- C8 counterexample: the claim says listEntries returns exactly the
entries whose email contains the search string as a case-insensitive
substring. With search "x.z" the code returns "xaz@b.com" — the raw
string goes to `$regex`, where the dot matches any character — although
"x.z" is not a substring of that email. -/
theorem c8_regex_not_substring :
    (getAllEntries [c8Entry] 1 20 none (some "x.z")).entries = [c8Entry] ∧
    substringCI "x.z".toList "xaz@b.com".toList = false :=
  ⟨rfl, by decide⟩

/-- C8 (amended): the search string is handed unescaped to the store's
`$regex` with the case-insensitive option, i.e. interpreted as a regular
expression over the email, not as a literal substring. For a search string
free of regex metacharacters the two coincide: listEntries then returns
exactly the status-matching entries whose email contains the search as a
case-insensitive substring, sorted createdAt-descending and paginated. -/
theorem c8_list_entries_substring (store : WaitlistStore) (page limit : Nat)
    (statusQ : Option String) (search : String)
    (hd : ('.' : Char) ∉ search.toList) :
    (getAllEntries store page limit statusQ (some search)).entries =
      ((sortByCreatedAtDesc (store.filter (fun e =>
          statusFilterMatch statusQ e && substringCI search.toList e.email.toList))).drop
        ((page - 1) * limit)).take limit ∧
    ∀ e ∈ (getAllEntries store page limit statusQ (some search)).entries,
      substringCI search.toList e.email.toList = true := by
  have hfe : store.filter (fun e =>
        statusFilterMatch statusQ e && searchFilterMatch (some search) e) =
      store.filter (fun e =>
        statusFilterMatch statusQ e && substringCI search.toList e.email.toList) :=
    List.filter_congr (fun x _ => by rw [searchFilterMatch_no_dot search x hd])
  constructor
  · show ((sortByCreatedAtDesc (store.filter (fun e =>
        statusFilterMatch statusQ e && searchFilterMatch (some search) e))).drop
          ((page - 1) * limit)).take limit = _
    rw [hfe]
  · intro e he
    have h1 : e ∈ sortByCreatedAtDesc (store.filter (fun e =>
        statusFilterMatch statusQ e && searchFilterMatch (some search) e)) :=
      List.mem_of_mem_drop (List.mem_of_mem_take he)
    have h2 : e ∈ store.filter (fun e =>
        statusFilterMatch statusQ e && searchFilterMatch (some search) e) :=
      mem_sortByCreatedAtDesc.mp h1
    have h3 := List.of_mem_filter h2
    have h4 : searchFilterMatch (some search) e = true := by
      simp only [Bool.and_eq_true] at h3
      exact h3.2
    rw [← searchFilterMatch_no_dot search e hd]
    exact h4

/-- C8 witness. -/
theorem c8_list_entries_substring_witness :
    (('.' : Char) ∉ "az".toList) ∧
    ((getAllEntries [c8Entry] 1 20 none (some "az")).entries =
      ((sortByCreatedAtDesc ([c8Entry].filter (fun e =>
          statusFilterMatch none e && substringCI "az".toList e.email.toList))).drop
        ((1 - 1) * 20)).take 20 ∧
    ∀ e ∈ (getAllEntries [c8Entry] 1 20 none (some "az")).entries,
      substringCI "az".toList e.email.toList = true) :=
  ⟨by decide, c8_list_entries_substring [c8Entry] 1 20 none "az" (by decide)⟩

/-- C5 counterexample: a join that creates a new entry does not always
return the claimed data. When the welcome-email send raises, the entry is
created all the same, but the request answers 500 with no data — no
position, no emailSent — so the unrestricted claim fails. Evaluated at a
concrete input: empty store, join p@q.com, transport raises EAUTH. -/
theorem c5_mail_error_join_no_position :
    wFindOne (addToWaitlist [] "p@q.com" none none none 3 (MailOutcome.failed "EAUTH")).2
        "p@q.com" =
      some { email := "p@q.com", ipAddress := none, userAgent := none,
             referralSource := none, status := WStatus.confirmed,
             confirmedAt := some 3, createdAt := 3 } ∧
    (addToWaitlist [] "p@q.com" none none none 3 (MailOutcome.failed "EAUTH")).1.status = 500 ∧
    (addToWaitlist [] "p@q.com" none none none 3 (MailOutcome.failed "EAUTH")).1.data = none :=
  ⟨rfl, rfl, rfl⟩
